import Mathlib

/-!
Verification of the SOS-alert service district-resolution subsystem.

The service (two revisions in `functions/index.js`, one earlier revision)
resolves a coordinate to a district identifier via one of three strategies:

* Strategy A: a static table of named bounding boxes with regional fallbacks
  (`getDistrictFromCoordinates` in the earliest revision);
* Strategy B: an external reverse-geocode with a TTL cache
  (`reverseGeocodeDistrict`, `pickDistrictFromAddress`, `normalizeDistrictName`);
* Strategy C: the client asserts the district inside `userInfo`
  (`app.post('/sos')` in the latest revision).

JavaScript strings are modelled as `String`/`List Char`; JavaScript numbers as
`ℚ`; `undefined`-or-number values as an explicit `JSNum`; falsiness of an
optional string (`undefined` or `""`) as `jsTruthy`.  Timestamps are `Nat`
milliseconds.  The `Map` cache is an association list whose `set` replaces in
place or appends, matching JavaScript `Map` key semantics and `Map.size`.
-/

/-! ## Normalization pipeline (`normalizeDistrictName`) -/

/-- Whitespace characters removed by JavaScript `String.prototype.trim`
(the subset relevant to this code base). -/
def isJsWhitespace (c : Char) : Bool :=
  c.toNat == 0x20 || c.toNat == 0x09 || c.toNat == 0x0A || c.toNat == 0x0D ||
  c.toNat == 0x0B || c.toNat == 0x0C || c.toNat == 0xA0

/-- JavaScript `trim`: drop whitespace from both ends. -/
def jsTrim (l : List Char) : List Char :=
  ((l.dropWhile isJsWhitespace).reverse.dropWhile isJsWhitespace).reverse

/-- Partial NFKD decomposition table for the non-ASCII Latin letters this
service encounters in geocoder output: each maps to a base ASCII letter
followed by a combining mark in U+0300–U+036F.  Characters not listed
decompose to themselves. -/
def nfkdTable : List (Nat × List Nat) :=
  [ (0xE0, [0x61, 0x300]), (0xE1, [0x61, 0x301]), (0xE2, [0x61, 0x302]),
    (0xE3, [0x61, 0x303]), (0xE4, [0x61, 0x308]),
    (0xE8, [0x65, 0x300]), (0xE9, [0x65, 0x301]), (0xEA, [0x65, 0x302]),
    (0xEB, [0x65, 0x308]),
    (0xEC, [0x69, 0x300]), (0xED, [0x69, 0x301]), (0xEE, [0x69, 0x302]),
    (0xEF, [0x69, 0x308]),
    (0xF2, [0x6F, 0x300]), (0xF3, [0x6F, 0x301]), (0xF4, [0x6F, 0x302]),
    (0xF5, [0x6F, 0x303]), (0xF6, [0x6F, 0x308]),
    (0xF9, [0x75, 0x300]), (0xFA, [0x75, 0x301]), (0xFB, [0x75, 0x302]),
    (0xFC, [0x75, 0x308]),
    (0xF1, [0x6E, 0x303]), (0xE7, [0x63, 0x327]) ]

/-- NFKD decomposition of one character.  ASCII is NFKD-invariant; above
ASCII we use the partial table. -/
def nfkd (c : Char) : List Char :=
  if c.toNat ≤ 0x7F then [c]
  else
    match nfkdTable.lookup c.toNat with
    | some ds => ds.map Char.ofNat
    | none => [c]

/-- The combining diacritical marks stripped by `replace(/[̀-ͯ]/g, '')`. -/
def isCombiningMark (c : Char) : Bool :=
  decide (0x300 ≤ c.toNat) && decide (c.toNat ≤ 0x36F)

/-- Characters kept by `replace(/[^\x00-\x7F]/g, '')`. -/
def isAsciiChar (c : Char) : Bool :=
  decide (c.toNat ≤ 0x7F)

/-- The character class `[a-z0-9]` of the slug regex. -/
def isLowerAlnum (c : Char) : Bool :=
  (decide (0x61 ≤ c.toNat) && decide (c.toNat ≤ 0x7A)) ||
  (decide (0x30 ≤ c.toNat) && decide (c.toNat ≤ 0x39))

/-- JavaScript `toLowerCase` restricted to the ASCII range the pipeline
feeds it (only `A`–`Z` change). -/
def jsToLowerChar (c : Char) : Char :=
  if 0x41 ≤ c.toNat ∧ c.toNat ≤ 0x5A then Char.ofNat (c.toNat + 32) else c

/-- `replace(/[^a-z0-9]+/g, '_')`: each maximal run of non-alphanumeric
characters becomes a single underscore.  The boolean flag records whether the
previous character was part of such a run (so the run emits only one `_`). -/
def collapseNonAlnum : Bool → List Char → List Char
  | _, [] => []
  | inRun, c :: cs =>
    if isLowerAlnum c then c :: collapseNonAlnum false cs
    else if inRun then collapseNonAlnum true cs
    else '_' :: collapseNonAlnum true cs

/-- `replace(/^_+|_+$/g, '')`: strip leading and trailing underscore runs. -/
def trimUnderscores (l : List Char) : List Char :=
  ((l.dropWhile (fun c => c == '_')).reverse.dropWhile (fun c => c == '_')).reverse

/-- `normalizeDistrictName` from `functions/index.js`: `null` for a missing or
empty string, otherwise trim, NFKD-decompose, strip combining marks and
non-ASCII, lowercase, collapse non-alphanumeric runs to underscores, trim edge
underscores; `null` when the slug comes out empty. -/
def normalizeDistrictName : Option String → Option String
  | none => none
  | some s =>
    if s.data = [] then none
    else
      let decomposed := ((jsTrim s.data).flatMap nfkd).filter
        (fun c => !isCombiningMark c)
      let asciiOnly := decomposed.filter isAsciiChar
      let slug := trimUnderscores
        (collapseNonAlnum false (asciiOnly.map jsToLowerChar))
      if slug = [] then none else some (String.mk slug)

/-! ## Address extraction (`pickDistrictFromAddress`) -/

/-- The structured address returned by the reverse geocoder: each field either
absent (`undefined`) or a string (possibly empty). -/
structure Address where
  district : Option String := none
  state_district : Option String := none
  county : Option String := none
  city_district : Option String := none
  city : Option String := none
  town : Option String := none
  village : Option String := none
  municipality : Option String := none
  suburb : Option String := none
  state : Option String := none
  region : Option String := none
  country : Option String := none
deriving Repr, DecidableEq

/-- JavaScript truthiness of an optional string: `undefined` and `""` are
falsy. -/
def jsTruthy : Option String → Bool
  | none => false
  | some s => s ≠ ""

/-- JavaScript `a || b` on optional strings. -/
def jsOr (a b : Option String) : Option String :=
  if jsTruthy a then a else b

/-- `districtLike`:
`address.district || address.state_district || address.county || address.city_district`. -/
def addressDistrictLike (a : Address) : Option String :=
  jsOr a.district (jsOr a.state_district (jsOr a.county a.city_district))

/-- `localityLike`:
`address.city || address.town || address.village || address.municipality || address.suburb`. -/
def addressLocalityLike (a : Address) : Option String :=
  jsOr a.city (jsOr a.town (jsOr a.village (jsOr a.municipality a.suburb)))

/-- `stateLike`: `address.state || address.region`. -/
def addressStateLike (a : Address) : Option String :=
  jsOr a.state a.region

/-- `pickDistrictFromAddress` from `functions/index.js`: the first truthy
field of the district/county chain or, if that whole chain is falsy, of the
city/town chain is normalized as one combined candidate
(`normalizeDistrictName(districtLike || localityLike)`); failing that, the
state/region and then the country are normalized and suffixed with
`_general`. -/
def pickDistrictFromAddress : Option Address → Option String
  | none => none
  | some a =>
    match normalizeDistrictName
        (jsOr (addressDistrictLike a) (addressLocalityLike a)) with
    | some d => some d
    | none =>
      match normalizeDistrictName (addressStateLike a) with
      | some s => some (s ++ "_general")
      | none =>
        match normalizeDistrictName a.country with
        | some c => some (c ++ "_general")
        | none => none

example : normalizeDistrictName (some "São Paulo!") = some "sao_paulo" := by decide

example : normalizeDistrictName (some "!!!") = none := by decide

example : normalizeDistrictName (some "Paris") = some "paris" := by decide

/-! ## Strategy A: static bounding-box table (`getDistrictFromCoordinates`,
earliest revision) -/

/-- Decimal constant with two fractional digits, e.g. `centi 1315 = 13.15`. -/
def centi (n : ℤ) : ℚ :=
  mkRat n 100

/-- A named rectangular region `{north, south, east, west}`. -/
structure Bounds where
  north : ℚ
  south : ℚ
  east : ℚ
  west : ℚ
deriving Repr, DecidableEq

/-- The containment test of the linear scan:
`latitude <= north && latitude >= south && longitude <= east && longitude >= west`. -/
def containsB (b : Bounds) (lat lon : ℚ) : Bool :=
  decide (lat ≤ b.north) && decide (b.south ≤ lat) &&
  decide (lon ≤ b.east) && decide (b.west ≤ lon)

/-- The inclusive-range test used by the simulator special case and the four
regional fallbacks: `lat >= latLo && lat <= latHi && lon >= lonLo && lon <= lonHi`. -/
def inRange (latLo latHi lonLo lonHi lat lon : ℚ) : Bool :=
  decide (latLo ≤ lat) && decide (lat ≤ latHi) &&
  decide (lonLo ≤ lon) && decide (lon ≤ lonHi)

/-- The ordered `districtBounds` table of the earliest revision. -/
def districtBounds : List (String × Bounds) :=
  [ ("bengaluru_urban", ⟨centi 1315, centi 1285, centi 7775, centi 7745⟩),
    ("mysuru", ⟨centi 1250, centi 1200, centi 7680, centi 7650⟩),
    ("mangaluru", ⟨centi 1300, centi 1270, centi 7500, centi 7470⟩),
    ("mumbai", ⟨centi 1930, centi 1890, centi 7295, centi 7275⟩),
    ("pune", ⟨centi 1865, centi 1845, centi 7395, centi 7375⟩),
    ("nagpur", ⟨centi 2125, centi 2105, centi 7915, centi 7895⟩),
    ("new_delhi", ⟨centi 2888, centi 2840, centi 7735, centi 7684⟩),
    ("gurgaon", ⟨centi 2852, centi 2838, centi 7712, centi 7695⟩),
    ("noida", ⟨centi 2865, centi 2845, centi 7745, centi 7725⟩),
    ("chennai", ⟨centi 1323, centi 1283, centi 8035, centi 8010⟩),
    ("coimbatore", ⟨centi 1110, centi 1090, centi 7710, centi 7690⟩),
    ("madurai", ⟨centi 995, centi 985, centi 7815, centi 7805⟩),
    ("kolkata", ⟨centi 2265, centi 2245, centi 8845, centi 8825⟩),
    ("hyderabad", ⟨centi 1755, centi 1725, centi 7865, centi 7825⟩),
    ("ahmedabad", ⟨centi 2315, centi 2295, centi 7275, centi 7245⟩),
    ("surat", ⟨centi 2125, centi 2115, centi 7285, centi 7275⟩),
    ("jaipur", ⟨centi 2695, centi 2685, centi 7585, centi 7575⟩),
    ("lucknow", ⟨centi 2695, centi 2675, centi 8105, centi 8085⟩),
    ("kanpur", ⟨centi 2655, centi 2635, centi 8045, centi 8025⟩),
    ("thiruvananthapuram", ⟨centi 865, centi 845, centi 7695, centi 7675⟩),
    ("kochi", ⟨centi 1005, centi 985, centi 7635, centi 7615⟩) ]

/-- Strategy A resolver: simulator special case, then first-match linear scan
of `districtBounds`, then the four regional fallbacks, then `india_general`. -/
def getDistrictFromCoordinates (lat lon : ℚ) : String :=
  if inRange (centi 3770) (centi 3780) (centi (-12250)) (centi (-12230)) lat lon then
    "bengaluru_urban"
  else
    match districtBounds.find? (fun d => containsB d.2 lat lon) with
    | some d => d.1
    | none =>
      if inRange (centi 1150) (centi 1850) (centi 7400) (centi 7850) lat lon then
        "karnataka_general"
      else if inRange (centi 1550) (centi 2200) (centi 7250) (centi 8050) lat lon then
        "maharashtra_general"
      else if inRange (centi 800) (centi 1350) (centi 7650) (centi 8050) lat lon then
        "tamil_nadu_general"
      else if inRange (centi 2800) (centi 2900) (centi 7650) (centi 7750) lat lon then
        "delhi_ncr_general"
      else
        "india_general"

/-- The simulator rectangle test, as the claim states it. -/
def inSimulatorRect (lat lon : ℚ) : Bool :=
  inRange (centi 3770) (centi 3780) (centi (-12250)) (centi (-12230)) lat lon

/-- The four regional fallback rectangles, in declared order, as an explicit
table (the spec describes step 3 as a first-match scan of these four). -/
def regionalFallbacks : List (String × (ℚ × ℚ × ℚ × ℚ)) :=
  [ ("karnataka_general", (centi 1150, centi 1850, centi 7400, centi 7850)),
    ("maharashtra_general", (centi 1550, centi 2200, centi 7250, centi 8050)),
    ("tamil_nadu_general", (centi 800, centi 1350, centi 7650, centi 8050)),
    ("delhi_ncr_general", (centi 2800, centi 2900, centi 7650, centi 7750)) ]

/-- Resolution as the spec describes steps 2–4 of Strategy A: first matching
rectangle of the declared district list, else first matching regional
fallback, else the ultimate fallback identifier. -/
def resolveBySpecTables (lat lon : ℚ) : String :=
  match districtBounds.find? (fun d => containsB d.2 lat lon) with
  | some d => d.1
  | none =>
    match regionalFallbacks.find?
        (fun r => inRange r.2.1 r.2.2.1 r.2.2.2.1 r.2.2.2.2 lat lon) with
    | some r => r.1
    | none => "india_general"

/-- **C7.** Any coordinate in the simulator rectangle (latitude 37.7–37.8,
longitude -122.5 – -122.3) resolves under Strategy A to the fixed test
district `bengaluru_urban`, independently of the district table and the
regional fallbacks. -/
theorem simulator_rectangle_override (lat lon : ℚ)
    (h1 : centi 3770 ≤ lat) (h2 : lat ≤ centi 3780)
    (h3 : centi (-12250) ≤ lon) (h4 : lon ≤ centi (-12230)) :
    getDistrictFromCoordinates lat lon = "bengaluru_urban" := by
  simp [getDistrictFromCoordinates, inRange, h1, h2, h3, h4]

/-- Witness for C7 at the concrete simulator coordinate (37.75, -122.40). -/
theorem simulator_rectangle_override_witness :
    getDistrictFromCoordinates (centi 3775) (centi (-12240)) = "bengaluru_urban" :=
  simulator_rectangle_override (centi 3775) (centi (-12240))
    (by decide) (by decide) (by decide) (by decide)

/-- **C3.** Outside the simulator rectangle, Strategy A resolution is exactly
first-match over the declared district list, then first-match over the four
regional fallbacks as declared, then the ultimate fallback `india_general`;
in particular a coordinate matching no listed rectangle and no regional
fallback resolves to `india_general`. -/
theorem strategyA_first_match_resolution :
    (∀ lat lon : ℚ, inSimulatorRect lat lon = false →
      getDistrictFromCoordinates lat lon = resolveBySpecTables lat lon) ∧
    (∀ lat lon : ℚ, inSimulatorRect lat lon = false →
      districtBounds.find? (fun d => containsB d.2 lat lon) = none →
      regionalFallbacks.find?
        (fun r => inRange r.2.1 r.2.2.1 r.2.2.2.1 r.2.2.2.2 lat lon) = none →
      getDistrictFromCoordinates lat lon = "india_general") := by
  have key : ∀ lat lon : ℚ, inSimulatorRect lat lon = false →
      getDistrictFromCoordinates lat lon = resolveBySpecTables lat lon := by
    intro lat lon h
    have h' : inRange (centi 3770) (centi 3780) (centi (-12250)) (centi (-12230))
        lat lon = false := h
    unfold getDistrictFromCoordinates resolveBySpecTables
    simp only [h', Bool.false_eq_true, if_false]
    cases hf : districtBounds.find? (fun d => containsB d.2 lat lon) with
    | some d => rfl
    | none =>
      cases hk : inRange (centi 1150) (centi 1850) (centi 7400) (centi 7850) lat lon <;>
      cases hm : inRange (centi 1550) (centi 2200) (centi 7250) (centi 8050) lat lon <;>
      cases ht : inRange (centi 800) (centi 1350) (centi 7650) (centi 8050) lat lon <;>
      cases hd : inRange (centi 2800) (centi 2900) (centi 7650) (centi 7750) lat lon <;>
      simp [regionalFallbacks, List.find?, hk, hm, ht, hd]
  refine ⟨key, ?_⟩
  intro lat lon h hfind hreg
  rw [key lat lon h]
  unfold resolveBySpecTables
  rw [hfind, hreg]

/-- Witness for C3: the Bengaluru coordinate (12.9716, 77.5946) is outside the
simulator rectangle and resolves identically under the code and the spec-side
first-match tables; the coordinate (50, 50) matches nothing and resolves to
`india_general`. -/
theorem strategyA_first_match_resolution_witness :
    getDistrictFromCoordinates (mkRat 129716 10000) (mkRat 775946 10000) =
      resolveBySpecTables (mkRat 129716 10000) (mkRat 775946 10000) ∧
    getDistrictFromCoordinates 50 50 = "india_general" :=
  ⟨strategyA_first_match_resolution.1 (mkRat 129716 10000) (mkRat 775946 10000)
      (by decide),
    strategyA_first_match_resolution.2 50 50 (by decide) (by decide) (by decide)⟩

/-! ## Strategy B: external reverse-geocode with cache
(`reverseGeocodeDistrict`, latest revision) -/

def DEFAULT_DISTRICT : String := "unknown"

def REVERSE_GEOCODE_CACHE_TTL_MS : Nat := 12 * 60 * 60 * 1000

/-- A JavaScript number-or-`undefined` value, as found in `location.latitude`
of an unvalidated request body. -/
inductive JSNum where
  | num (q : ℚ)
  | undef
deriving Repr, DecidableEq

/-- `x.toFixed(4)` as the rounded ten-thousandths integer: the nearest
`n / 10^4`, ties toward the larger `n`, i.e. `⌊x * 10^4 + 1/2⌋`, written as
one integer floor-division so that it evaluates by kernel reduction.  The
cache key `lat.toFixed(4) + "," + lon.toFixed(4)` is modelled as the pair of
these two integers (the decimal rendering is injective on that pair). -/
def toFixed4 (x : ℚ) : ℤ :=
  Int.fdiv (2 * x.num * 10000 + x.den) (2 * x.den)

/-- `toFixed` throws a `TypeError` when the receiver is not a number. -/
def jsToFixed4 : JSNum → Except String ℤ
  | .num q => .ok (toFixed4 q)
  | .undef => .error "TypeError"

/-- One entry of `reverseGeocodeCache`: `{district, timestamp}`. -/
structure CacheEntry where
  district : String
  timestamp : Nat
deriving Repr, DecidableEq

/-- The `Map` cache, as an insertion-ordered association list with unique
keys; `Map.size` is its length. -/
abbrev GeoCache := List ((ℤ × ℤ) × CacheEntry)

/-- `Map.get`. -/
def cacheGet : GeoCache → (ℤ × ℤ) → Option CacheEntry
  | [], _ => none
  | p :: m, k => if p.1 = k then some p.2 else cacheGet m k

/-- `Map.set`: replace the entry in place when the key exists, else append. -/
def cacheSet : GeoCache → (ℤ × ℤ) → CacheEntry → GeoCache
  | [], k, v => [(k, v)]
  | p :: m, k, v => if p.1 = k then (k, v) :: m else p :: cacheSet m k v

/-- Outcome of the external Nominatim call: `fail` for any thrown error
(network, timeout, non-ok status, JSON parse); `ok addr` for a parsed body
whose `address` is `addr` (`none` when the body has no address object). -/
inductive Upstream where
  | fail
  | ok (addr : Option Address)

/-- The `{district, source}` object returned by `reverseGeocodeDistrict`. -/
structure GeoResult where
  district : String
  source : String
deriving Repr, DecidableEq

/-- The cache-miss/stale path of `reverseGeocodeDistrict`: consult the
upstream; on a thrown error return the default district tagged `error`; on a
successful pick, clear the cache if it has grown past 1000 entries, insert,
and tag `nominatim`; if no candidate survives normalization, tag
`nominatim-fallback` without caching. -/
def reverseGeocodeMiss (cache : GeoCache) (now : Nat) (cacheKey : ℤ × ℤ)
    (up : Upstream) : GeoResult × GeoCache :=
  match up with
  | .fail => (⟨DEFAULT_DISTRICT, "error"⟩, cache)
  | .ok addr =>
    match pickDistrictFromAddress addr with
    | some district =>
      (⟨district, "nominatim"⟩,
        cacheSet (if cache.length > 1000 then [] else cache) cacheKey
          ⟨district, now⟩)
    | none => (⟨DEFAULT_DISTRICT, "nominatim-fallback"⟩, cache)

/-- `reverseGeocodeDistrict` from the latest revision, with the process state
(cache, clock) and the upstream outcome passed explicitly: a cache entry
younger than the TTL answers immediately with source `cache`; otherwise the
miss path runs. -/
def reverseGeocodeDistrict (cache : GeoCache) (now : Nat) (lat lon : ℚ)
    (up : Upstream) : GeoResult × GeoCache :=
  match cacheGet cache (toFixed4 lat, toFixed4 lon) with
  | some cached =>
    if now - cached.timestamp < REVERSE_GEOCODE_CACHE_TTL_MS then
      (⟨cached.district, "cache"⟩, cache)
    else
      reverseGeocodeMiss cache now (toFixed4 lat, toFixed4 lon) up
  | none => reverseGeocodeMiss cache now (toFixed4 lat, toFixed4 lon) up

/-- `reverseGeocodeDistrict` as called on raw request values: the cache key is
computed by `latitude.toFixed(4)` and `longitude.toFixed(4)` before the `try`
block, so a non-number coordinate raises a `TypeError` to the caller. -/
def reverseGeocodeDistrictE (lat lon : JSNum) (cache : GeoCache) (now : Nat)
    (up : Upstream) : Except String (GeoResult × GeoCache) :=
  match jsToFixed4 lat with
  | .error e => .error e
  | .ok _ =>
    match jsToFixed4 lon with
    | .error e => .error e
    | .ok _ =>
      match lat, lon with
      | .num a, .num b => .ok (reverseGeocodeDistrict cache now a b up)
      | _, _ => .error "TypeError"

theorem cacheGet_cacheSet_self (m : GeoCache) (k : ℤ × ℤ) (v : CacheEntry) :
    cacheGet (cacheSet m k v) k = some v := by
  induction m with
  | nil => simp [cacheSet, cacheGet]
  | cons p m ih =>
    by_cases hp : p.1 = k
    · simp [cacheSet, cacheGet, hp]
    · simp [cacheSet, cacheGet, hp, ih]

theorem length_cacheSet_le (m : GeoCache) (k : ℤ × ℤ) (v : CacheEntry) :
    (cacheSet m k v).length ≤ m.length + 1 := by
  induction m with
  | nil => simp [cacheSet]
  | cons p m ih =>
    by_cases hp : p.1 = k
    · simp [cacheSet, hp]
    · simp only [cacheSet, hp, if_false, List.length_cons]
      omega

/-- **C1.** A cache entry younger than 12 hours for the rounded coordinate
answers with that district and source `cache`, leaves the cache untouched, and
makes the result independent of the upstream; consequently a second resolution
of the same coordinate within the TTL returns the first call's district with
source `cache` even when the upstream fails on the second call. -/
theorem strategyB_cache_hit_idempotent :
    (∀ (cache : GeoCache) (now : Nat) (lat lon : ℚ) (up up' : Upstream)
      (e : CacheEntry),
      cacheGet cache (toFixed4 lat, toFixed4 lon) = some e →
      now - e.timestamp < REVERSE_GEOCODE_CACHE_TTL_MS →
      reverseGeocodeDistrict cache now lat lon up = (⟨e.district, "cache"⟩, cache) ∧
      reverseGeocodeDistrict cache now lat lon up
        = reverseGeocodeDistrict cache now lat lon up') ∧
    (∀ (cache c1 : GeoCache) (t1 t2 : Nat) (lat lon : ℚ) (addr : Option Address)
      (d : String),
      reverseGeocodeDistrict cache t1 lat lon (.ok addr) = (⟨d, "nominatim"⟩, c1) →
      t2 - t1 < REVERSE_GEOCODE_CACHE_TTL_MS →
      reverseGeocodeDistrict c1 t2 lat lon .fail = (⟨d, "cache"⟩, c1)) := by
  constructor
  · intro cache now lat lon up up' e hget hfresh
    constructor <;> simp [reverseGeocodeDistrict, hget, hfresh]
  · intro cache c1 t1 t2 lat lon addr d hcall hfresh
    have hmiss : ∀ c0 : GeoCache,
        reverseGeocodeMiss cache t1 (toFixed4 lat, toFixed4 lon) (.ok addr)
          = (⟨d, "nominatim"⟩, c1) →
        reverseGeocodeDistrict c1 t2 lat lon .fail = (⟨d, "cache"⟩, c1) := by
      intro _ hm
      unfold reverseGeocodeMiss at hm
      cases hp : pickDistrictFromAddress addr with
      | none =>
        simp only [hp, Prod.mk.injEq, GeoResult.mk.injEq] at hm
        exact absurd hm.1.2 (by decide)
      | some district =>
        simp only [hp, Prod.mk.injEq, GeoResult.mk.injEq, true_and,
          and_true] at hm
        obtain ⟨hd, hc⟩ := hm
        subst hd
        have hkey : cacheGet c1 (toFixed4 lat, toFixed4 lon)
            = some ⟨district, t1⟩ := by
          rw [← hc]
          exact cacheGet_cacheSet_self _ _ _
        simp [reverseGeocodeDistrict, hkey, hfresh]
    unfold reverseGeocodeDistrict at hcall
    cases hget : cacheGet cache (toFixed4 lat, toFixed4 lon) with
    | some cached =>
      simp only [hget] at hcall
      by_cases hf : t1 - cached.timestamp < REVERSE_GEOCODE_CACHE_TTL_MS
      · rw [if_pos hf] at hcall
        simp only [Prod.mk.injEq, GeoResult.mk.injEq] at hcall
        exact absurd hcall.1.2 (by decide)
      · rw [if_neg hf] at hcall
        exact hmiss cache hcall
    | none =>
      simp only [hget] at hcall
      exact hmiss cache hcall

/-- Witness for C1: a singleton cache whose entry was written at time 0 is
consulted at time 1 (upstream failing), and a fresh successful resolution at
time 0 followed by a failing one at time 1 returns the cached district. -/
theorem strategyB_cache_hit_idempotent_witness :
    reverseGeocodeDistrict [((129716, 775946), ⟨"bengaluru_urban", 0⟩)] 1
      (mkRat 129716 10000) (mkRat 775946 10000) .fail
      = (⟨"bengaluru_urban", "cache"⟩,
          [((129716, 775946), ⟨"bengaluru_urban", 0⟩)]) ∧
    reverseGeocodeDistrict [((129716, 775946), ⟨"paris", 0⟩)] 1
      (mkRat 129716 10000) (mkRat 775946 10000) .fail
      = (⟨"paris", "cache"⟩, [((129716, 775946), ⟨"paris", 0⟩)]) :=
  ⟨(strategyB_cache_hit_idempotent.1 _ 1 (mkRat 129716 10000)
      (mkRat 775946 10000) .fail .fail ⟨"bengaluru_urban", 0⟩
      (by decide) (by decide)).1,
    (strategyB_cache_hit_idempotent.1 _ 1 (mkRat 129716 10000)
      (mkRat 775946 10000) .fail .fail ⟨"paris", 0⟩
      (by decide) (by decide)).1⟩

/-- One resolver invocation, as observed by the shared cache. -/
structure ResolveOp where
  now : Nat
  lat : ℚ
  lon : ℚ
  up : Upstream

/-- The cache left by a sequence of resolutions starting from the empty cache
of a fresh process. -/
def cacheAfter (ops : List ResolveOp) : GeoCache :=
  ops.foldl (fun c op => (reverseGeocodeDistrict c op.now op.lat op.lon op.up).2) []

theorem cache_step_bound (cache : GeoCache) (now : Nat) (lat lon : ℚ)
    (up : Upstream) (h : cache.length ≤ 1001) :
    (reverseGeocodeDistrict cache now lat lon up).2.length ≤ 1001 := by
  unfold reverseGeocodeDistrict reverseGeocodeMiss
  cases hget : cacheGet cache (toFixed4 lat, toFixed4 lon) with
  | some cached =>
    by_cases hf : now - cached.timestamp < REVERSE_GEOCODE_CACHE_TTL_MS
    · simpa [hf] using h
    · simp only [hf, if_false]
      cases up with
      | fail => simpa using h
      | ok addr =>
        cases hp : pickDistrictFromAddress addr with
        | none => simpa [hp] using h
        | some district =>
          simp only [hp]
          by_cases hl : cache.length > 1000
          · have := length_cacheSet_le ([] : GeoCache)
              (toFixed4 lat, toFixed4 lon) ⟨district, now⟩
            simp only [hl, if_true]
            simpa using Nat.le_trans this (by simp)
          · have := length_cacheSet_le cache
              (toFixed4 lat, toFixed4 lon) ⟨district, now⟩
            simp only [hl, if_false]
            omega
  | none =>
    cases up with
    | fail => simpa using h
    | ok addr =>
      cases hp : pickDistrictFromAddress addr with
      | none => simpa [hp] using h
      | some district =>
        simp only [hp]
        by_cases hl : cache.length > 1000
        · have := length_cacheSet_le ([] : GeoCache)
            (toFixed4 lat, toFixed4 lon) ⟨district, now⟩
          simp only [hl, if_true]
          simpa using Nat.le_trans this (by simp)
        · have := length_cacheSet_le cache
            (toFixed4 lat, toFixed4 lon) ⟨district, now⟩
          simp only [hl, if_false]
          omega

/-- **C10.** After any sequence of resolutions from a fresh process, the
reverse-geocode cache holds at most 1001 entries: the sole insertion path
clears the whole cache first whenever its size exceeds 1000. -/
theorem cache_size_bounded (ops : List ResolveOp) :
    (cacheAfter ops).length ≤ 1001 := by
  suffices h : ∀ (c : GeoCache), c.length ≤ 1001 →
      (ops.foldl
        (fun c op => (reverseGeocodeDistrict c op.now op.lat op.lon op.up).2)
        c).length ≤ 1001 by
    exact h [] (by simp)
  induction ops with
  | nil => intro c hc; simpa using hc
  | cons op rest ih =>
    intro c hc
    simpa using ih _ (cache_step_bound c op.now op.lat op.lon op.up hc)

/-! ## The `/sos` (`/api/sos`) endpoint handlers -/

/-- The `location` object of a request body; its fields are whatever the
client sent, possibly absent. -/
structure Location where
  latitude : JSNum
  longitude : JSNum
deriving Repr, DecidableEq

/-- The `userInfo` block of a request body. -/
structure UserInfo where
  name : Option String := none
  location : Option String := none
  district : Option String := none
deriving Repr, DecidableEq

/-- The parsed JSON body of a `POST /sos` request (string-typed fields). -/
structure SosBody where
  sos_id : Option String := none
  sos_type : Option String := none
  location : Option Location := none
  userInfo : Option UserInfo := none
  timestamp : Option String := none
  sender_id : Option String := none
deriving Repr, DecidableEq

/-- `userInfo?.district` (optional chaining). -/
def userInfoDistrict : Option UserInfo → Option String
  | none => none
  | some ui => ui.district

/-- The observable outcome of one handler run: a 400 with its error payload,
a 200 success with the resolved district and topic, or a 500 from the catch
block. -/
inductive SosResponse where
  | success (district : String) (topic : String) (messageId : String)
  | badRequest (error : String) (required : List String) (message : Option String)
  | serverError (error : String)
deriving Repr, DecidableEq

/-- Outcome of `admin.messaging().send`: a message id, or a thrown transport
error (which the handler's catch turns into a 500). -/
inductive SendOutcome where
  | sent (messageId : String)
  | failed (msg : String)
deriving Repr, DecidableEq

/-- HTTP status of a response. -/
def SosResponse.status : SosResponse → Nat
  | .success _ _ _ => 200
  | .badRequest _ _ _ => 400
  | .serverError _ => 500

/-- The first validation of every revision:
`if (!sos_id || !sos_type || !location)`. -/
def missingRequiredField (b : SosBody) : Prop :=
  jsTruthy b.sos_id = false ∨ jsTruthy b.sos_type = false ∨ b.location = none

instance (b : SosBody) : Decidable (missingRequiredField b) := by
  unfold missingRequiredField; infer_instance

/-- The second validation: `!['sos_alert', 'stop'].includes(sos_type)`. -/
def invalidSosType (b : SosBody) : Prop :=
  ¬(b.sos_type = some "sos_alert" ∨ b.sos_type = some "stop")

instance (b : SosBody) : Decidable (invalidSosType b) := by
  unfold invalidSosType; infer_instance

/-- Dispatch of the composed FCM message to `district-<district>` and the
response built from its outcome; the second component lists the topics to
which a send was attempted. -/
def dispatchSos (district : String) (send : SendOutcome) :
    SosResponse × List String :=
  match send with
  | .sent mid =>
    (.success district (String.append "district-" district) mid,
      [String.append "district-" district])
  | .failed _ =>
    (.serverError "Failed to send SOS alert",
      [String.append "district-" district])

/-- Strategy A resolution on raw (unvalidated) request values: a comparison
with `undefined` is false in JavaScript, so when either coordinate is missing
every rectangle test and every regional test fails and the ultimate fallback
is returned; no exception is thrown. -/
def getDistrictFromCoordinatesJS : JSNum → JSNum → String
  | .num lat, .num lon => getDistrictFromCoordinates lat lon
  | _, _ => "india_general"

/-- The `POST /api/sos` handler of the earliest revision (Strategy A):
validate, resolve the district from the static tables, dispatch. -/
def handleSosA (b : SosBody) (send : SendOutcome) : SosResponse × List String :=
  if missingRequiredField b then
    (.badRequest "Missing required fields" ["sos_id", "sos_type", "location"]
      none, [])
  else if invalidSosType b then
    (.badRequest "Invalid sos_type" []
      (some "sos_type must be either sos_alert or stop"), [])
  else
    match b.location with
    | none =>
      (.badRequest "Missing required fields" ["sos_id", "sos_type", "location"]
        none, [])
    | some loc =>
      dispatchSos (getDistrictFromCoordinatesJS loc.latitude loc.longitude) send

/-- The `POST /api/sos` handler of the middle revision (Strategy B): validate,
resolve through `reverseGeocodeDistrict` (whose `TypeError` on a non-number
coordinate is caught by the handler's catch block as a 500), dispatch. -/
def handleSosB (b : SosBody) (cache : GeoCache) (now : Nat) (up : Upstream)
    (send : SendOutcome) : SosResponse × GeoCache × List String :=
  if missingRequiredField b then
    (.badRequest "Missing required fields" ["sos_id", "sos_type", "location"]
      none, cache, [])
  else if invalidSosType b then
    (.badRequest "Invalid sos_type" []
      (some "sos_type must be either sos_alert or stop"), cache, [])
  else
    match b.location with
    | none =>
      (.badRequest "Missing required fields" ["sos_id", "sos_type", "location"]
        none, cache, [])
    | some loc =>
      match reverseGeocodeDistrictE loc.latitude loc.longitude cache now up with
      | .error _ => (.serverError "Failed to send SOS alert", cache, [])
      | .ok (r, cache2) =>
        match dispatchSos r.district send with
        | (resp, topics) => (resp, cache2, topics)

/-- The `POST /sos` handler of the latest revision (Strategy C): validate,
then require `userInfo?.district` to be truthy (else 400), dispatch to it. -/
def handleSosC (b : SosBody) (send : SendOutcome) : SosResponse × List String :=
  if missingRequiredField b then
    (.badRequest "Missing required fields" ["sos_id", "sos_type", "location"]
      none, [])
  else if invalidSosType b then
    (.badRequest "Invalid sos_type" []
      (some "sos_type must be either sos_alert or stop"), [])
  else if b.sos_type = some "stop" then
    match userInfoDistrict b.userInfo with
    | some d =>
      if d = "" then
        (.badRequest "Missing district in userInfo" []
          (some "district is required for stop notification"), [])
      else
        dispatchSos d send
    | none =>
      (.badRequest "Missing district in userInfo" []
        (some "district is required for stop notification"), [])
  else
    match userInfoDistrict b.userInfo with
    | some d =>
      if d = "" then
        (.badRequest "Missing district in userInfo" []
          (some "district is required for SOS alert"), [])
      else
        dispatchSos d send
    | none =>
      (.badRequest "Missing district in userInfo" []
        (some "district is required for SOS alert"), [])

theorem reverseGeocode_fail_stale (cache : GeoCache) (now : Nat) (lat lon : ℚ)
    (h : ∀ e : CacheEntry, cacheGet cache (toFixed4 lat, toFixed4 lon) = some e →
      REVERSE_GEOCODE_CACHE_TTL_MS ≤ now - e.timestamp) :
    reverseGeocodeDistrict cache now lat lon .fail
      = (⟨DEFAULT_DISTRICT, "error"⟩, cache) := by
  unfold reverseGeocodeDistrict
  cases hget : cacheGet cache (toFixed4 lat, toFixed4 lon) with
  | some e =>
    have hstale := h e hget
    have : ¬(now - e.timestamp < REVERSE_GEOCODE_CACHE_TTL_MS) := by omega
    simp [this, reverseGeocodeMiss]
  | none => simp [reverseGeocodeMiss]

/-- **C5.** When the cache cannot answer (no entry, or the entry is stale)
and the upstream call fails, Strategy B returns the default district tagged
`error` with the cache unchanged, and the `/api/sos` handler still answers
the HTTP caller with a 200 success response (for a valid request whose
dispatch succeeds) rather than surfacing the upstream failure. -/
theorem strategyB_upstream_failure_degrades :
    (∀ (cache : GeoCache) (now : Nat) (lat lon : ℚ),
      (∀ e : CacheEntry, cacheGet cache (toFixed4 lat, toFixed4 lon) = some e →
        REVERSE_GEOCODE_CACHE_TTL_MS ≤ now - e.timestamp) →
      reverseGeocodeDistrict cache now lat lon .fail
        = (⟨DEFAULT_DISTRICT, "error"⟩, cache)) ∧
    (∀ (b : SosBody) (cache : GeoCache) (now : Nat) (lat lon : ℚ) (mid : String),
      ¬missingRequiredField b → ¬invalidSosType b →
      b.location = some ⟨.num lat, .num lon⟩ →
      (∀ e : CacheEntry, cacheGet cache (toFixed4 lat, toFixed4 lon) = some e →
        REVERSE_GEOCODE_CACHE_TTL_MS ≤ now - e.timestamp) →
      handleSosB b cache now .fail (.sent mid)
        = (.success DEFAULT_DISTRICT "district-unknown" mid, cache,
            ["district-unknown"])) := by
  refine ⟨reverseGeocode_fail_stale, ?_⟩
  intro b cache now lat lon mid hmiss hinv hloc hstale
  unfold handleSosB
  rw [if_neg hmiss, if_neg hinv, hloc]
  have hE : reverseGeocodeDistrictE (.num lat) (.num lon) cache now .fail
      = .ok (⟨DEFAULT_DISTRICT, "error"⟩, cache) := by
    simp only [reverseGeocodeDistrictE, jsToFixed4]
    rw [reverseGeocode_fail_stale cache now lat lon hstale]
  simp only [hE]
  rfl

/-- Witness for C5: the empty cache of a fresh process, a failing upstream,
and a valid alert request produce the degraded district and a 200. -/
theorem strategyB_upstream_failure_degrades_witness :
    reverseGeocodeDistrict [] 5 (mkRat 129716 10000) (mkRat 775946 10000) .fail
      = (⟨DEFAULT_DISTRICT, "error"⟩, []) ∧
    handleSosB
      { sos_id := some "abc", sos_type := some "sos_alert",
        location := some ⟨.num (mkRat 129716 10000), .num (mkRat 775946 10000)⟩ }
      [] 5 .fail (.sent "mid")
      = (.success DEFAULT_DISTRICT "district-unknown" "mid", [],
          ["district-unknown"]) :=
  ⟨strategyB_upstream_failure_degrades.1 [] 5 (mkRat 129716 10000)
      (mkRat 775946 10000) (fun e h => by simp [cacheGet] at h),
    strategyB_upstream_failure_degrades.2
      { sos_id := some "abc", sos_type := some "sos_alert",
        location := some ⟨.num (mkRat 129716 10000), .num (mkRat 775946 10000)⟩ }
      [] 5 (mkRat 129716 10000) (mkRat 775946 10000) "mid"
      (by decide) (by decide) rfl (fun e h => by simp [cacheGet] at h)⟩

/-- **C8.** In both revisions that validate `/sos` (Strategy A and
Strategy C), a request missing `sos_id`, `sos_type` or `location` gets a 400
carrying exactly the required-fields list, and a request with all three
present but an `sos_type` outside `{sos_alert, stop}` gets a 400 for invalid
`sos_type`; in both cases no notification is dispatched. -/
theorem sos_validation_rejects :
    (∀ (b : SosBody) (send : SendOutcome), missingRequiredField b →
      handleSosA b send = (.badRequest "Missing required fields"
        ["sos_id", "sos_type", "location"] none, []) ∧
      handleSosC b send = (.badRequest "Missing required fields"
        ["sos_id", "sos_type", "location"] none, [])) ∧
    (∀ (b : SosBody) (send : SendOutcome), ¬missingRequiredField b →
      invalidSosType b →
      handleSosA b send = (.badRequest "Invalid sos_type" []
        (some "sos_type must be either sos_alert or stop"), []) ∧
      handleSosC b send = (.badRequest "Invalid sos_type" []
        (some "sos_type must be either sos_alert or stop"), [])) := by
  constructor
  · intro b send h
    constructor <;> simp [handleSosA, handleSosC, h]
  · intro b send h hinv
    constructor <;> simp [handleSosA, handleSosC, h, hinv]

/-- Witness for C8: a body missing `sos_id`, and a body with `sos_type`
`"foo"`. -/
theorem sos_validation_rejects_witness :
    handleSosC
      { sos_type := some "sos_alert",
        location := some ⟨.num 1, .num 2⟩ } (.sent "mid")
      = (.badRequest "Missing required fields"
          ["sos_id", "sos_type", "location"] none, []) ∧
    handleSosA
      { sos_id := some "abc", sos_type := some "foo",
        location := some ⟨.num 1, .num 2⟩ } (.sent "mid")
      = (.badRequest "Invalid sos_type" []
          (some "sos_type must be either sos_alert or stop"), []) :=
  ⟨(sos_validation_rejects.1
      { sos_type := some "sos_alert", location := some ⟨.num 1, .num 2⟩ }
      (.sent "mid") (by decide)).2,
    (sos_validation_rejects.2
      { sos_id := some "abc", sos_type := some "foo",
        location := some ⟨.num 1, .num 2⟩ }
      (.sent "mid") (by decide) (by decide)).1⟩

/-- **C9.** Under Strategy C, a `stop` request whose `userInfo` carries no
truthy district is answered 400 citing the missing district, and nothing is
dispatched. -/
theorem strategyC_stop_missing_district (b : SosBody) (send : SendOutcome)
    (hmiss : ¬missingRequiredField b) (htype : b.sos_type = some "stop")
    (hud : jsTruthy (userInfoDistrict b.userInfo) = false) :
    handleSosC b send = (.badRequest "Missing district in userInfo" []
      (some "district is required for stop notification"), []) := by
  have hinv : ¬invalidSosType b := by simp [invalidSosType, htype]
  unfold handleSosC
  rw [if_neg hmiss, if_neg hinv, if_pos htype]
  cases hd : userInfoDistrict b.userInfo with
  | none => rfl
  | some d =>
    rw [hd] at hud
    have : d = "" := by simpa [jsTruthy] using hud
    simp [this]

/-- Witness for C9: a `stop` request with no `userInfo` at all. -/
theorem strategyC_stop_missing_district_witness :
    handleSosC
      { sos_id := some "abc", sos_type := some "stop",
        location := some ⟨.num 1, .num 2⟩ } (.sent "mid")
      = (.badRequest "Missing district in userInfo" []
          (some "district is required for stop notification"), []) :=
  strategyC_stop_missing_district
    { sos_id := some "abc", sos_type := some "stop",
      location := some ⟨.num 1, .num 2⟩ } (.sent "mid")
    (by decide) rfl rfl

/-! ## Totality of the resolver (C4) -/

theorem slugOption_ne_empty (l : List Char) (t : String)
    (h : (if l = [] then none else some (String.mk l)) = some t) : t ≠ "" := by
  by_cases hl : l = []
  · simp [hl] at h
  · simp only [hl, if_false, Option.some.injEq] at h
    subst h
    exact fun hEq => hl (congrArg String.data hEq)

theorem normalizeDistrictName_ne_empty (x : Option String) (t : String)
    (h : normalizeDistrictName x = some t) : t ≠ "" := by
  cases x with
  | none => simp [normalizeDistrictName] at h
  | some s =>
    simp only [normalizeDistrictName] at h
    by_cases h0 : s.data = []
    · rw [if_pos h0] at h
      exact absurd h (by simp)
    · rw [if_neg h0] at h
      exact slugOption_ne_empty _ _ h

theorem append_general_ne_empty (s : String) : s ++ "_general" ≠ "" := by
  intro hEq
  have hdata := congrArg String.data hEq
  simp [String.data_append] at hdata

theorem pickDistrictFromAddress_ne_empty (addr : Option Address) (d : String)
    (h : pickDistrictFromAddress addr = some d) : d ≠ "" := by
  cases addr with
  | none => simp [pickDistrictFromAddress] at h
  | some a =>
    have h' : (match normalizeDistrictName
        (jsOr (addressDistrictLike a) (addressLocalityLike a)) with
      | some d0 => some d0
      | none =>
        match normalizeDistrictName (addressStateLike a) with
        | some s => some (s ++ "_general")
        | none =>
          match normalizeDistrictName a.country with
          | some c => some (c ++ "_general")
          | none => none) = some d := h
    cases h1 : normalizeDistrictName
        (jsOr (addressDistrictLike a) (addressLocalityLike a)) with
    | some d0 =>
      simp only [h1, Option.some.injEq] at h'
      subst h'
      exact normalizeDistrictName_ne_empty _ _ h1
    | none =>
      simp only [h1] at h'
      cases h2 : normalizeDistrictName (addressStateLike a) with
      | some s =>
        simp only [h2, Option.some.injEq] at h'
        subst h'
        exact append_general_ne_empty s
      | none =>
        simp only [h2] at h'
        cases h3 : normalizeDistrictName a.country with
        | some c =>
          simp only [h3, Option.some.injEq] at h'
          subst h'
          exact append_general_ne_empty c
        | none =>
          simp only [h3] at h'
          exact absurd h' (by simp)

theorem cacheGet_cacheSet_cases (m : GeoCache) (k0 k : ℤ × ℤ) (v e : CacheEntry)
    (h : cacheGet (cacheSet m k0 v) k = some e) :
    e = v ∨ cacheGet m k = some e := by
  induction m with
  | nil =>
    simp only [cacheSet, cacheGet] at h
    by_cases hk : k0 = k
    · rw [if_pos hk] at h
      cases h
      exact Or.inl rfl
    · rw [if_neg hk] at h
      exact absurd h (by simp)
  | cons p m ih =>
    by_cases hp : p.1 = k0
    · simp only [cacheSet, hp, if_true] at h
      simp only [cacheGet] at h ⊢
      by_cases hk : k0 = k
      · rw [if_pos hk] at h
        cases h
        exact Or.inl rfl
      · rw [if_neg hk] at h
        rw [hp, if_neg hk]
        exact Or.inr h
    · simp only [cacheSet, hp, if_false] at h
      simp only [cacheGet] at h ⊢
      by_cases hk : p.1 = k
      · rw [if_pos hk] at h ⊢
        exact Or.inr h
      · rw [if_neg hk] at h ⊢
        exact ih h

/-- A cache is well formed when every stored district is a non-empty string;
this holds for the empty cache of a fresh process and is preserved because
only successfully picked districts are inserted. -/
def CacheWF (cache : GeoCache) : Prop :=
  ∀ (k : ℤ × ℤ) (e : CacheEntry), cacheGet cache k = some e → e.district ≠ ""

theorem reverseGeocodeDistrict_cases (cache : GeoCache) (now : Nat)
    (lat lon : ℚ) (up : Upstream) :
    (∃ cached : CacheEntry,
      cacheGet cache (toFixed4 lat, toFixed4 lon) = some cached ∧
      now - cached.timestamp < REVERSE_GEOCODE_CACHE_TTL_MS ∧
      reverseGeocodeDistrict cache now lat lon up
        = (⟨cached.district, "cache"⟩, cache)) ∨
    reverseGeocodeDistrict cache now lat lon up
      = reverseGeocodeMiss cache now (toFixed4 lat, toFixed4 lon) up := by
  unfold reverseGeocodeDistrict
  cases hget : cacheGet cache (toFixed4 lat, toFixed4 lon) with
  | some cached =>
    by_cases hf : now - cached.timestamp < REVERSE_GEOCODE_CACHE_TTL_MS
    · exact Or.inl ⟨cached, rfl, hf, by simp [hf]⟩
    · exact Or.inr (by simp [hf])
  | none => exact Or.inr rfl

theorem reverseGeocodeMiss_cases (cache : GeoCache) (now : Nat)
    (key : ℤ × ℤ) (up : Upstream) :
    (up = .fail ∧ reverseGeocodeMiss cache now key up
      = (⟨DEFAULT_DISTRICT, "error"⟩, cache)) ∨
    (∃ (addr : Option Address) (district : String), up = .ok addr ∧
      pickDistrictFromAddress addr = some district ∧
      reverseGeocodeMiss cache now key up
        = (⟨district, "nominatim"⟩,
            cacheSet (if cache.length > 1000 then [] else cache) key
              ⟨district, now⟩)) ∨
    (∃ addr : Option Address, up = .ok addr ∧
      pickDistrictFromAddress addr = none ∧
      reverseGeocodeMiss cache now key up
        = (⟨DEFAULT_DISTRICT, "nominatim-fallback"⟩, cache)) := by
  cases up with
  | fail => exact Or.inl ⟨rfl, rfl⟩
  | ok addr =>
    cases hp : pickDistrictFromAddress addr with
    | some district =>
      exact Or.inr (Or.inl ⟨addr, district, rfl, hp,
        by simp [reverseGeocodeMiss, hp]⟩)
    | none =>
      exact Or.inr (Or.inr ⟨addr, rfl, hp, by simp [reverseGeocodeMiss, hp]⟩)

/-- **C4 (amended).** For numeric coordinates the resolver is total and
always produces a non-empty district string: Strategy A returns a non-empty
identifier for every coordinate, and Strategy B returns normally (never
raises) with a non-empty district, preserving cache well-formedness.  (As
stated, the claim fails: a `/sos` body whose `location` lacks a numeric
latitude passes the endpoint's validation, yet makes the Strategy B resolver
throw a `TypeError` — see the counterexample.) -/
theorem resolver_total_on_numeric :
    (∀ lat lon : ℚ, getDistrictFromCoordinates lat lon ≠ "") ∧
    (∀ (lat lon : ℚ) (cache : GeoCache) (now : Nat) (up : Upstream),
      reverseGeocodeDistrictE (.num lat) (.num lon) cache now up
        = .ok (reverseGeocodeDistrict cache now lat lon up)) ∧
    (∀ (cache : GeoCache) (now : Nat) (lat lon : ℚ) (up : Upstream),
      CacheWF cache →
      (reverseGeocodeDistrict cache now lat lon up).1.district ≠ "" ∧
      CacheWF (reverseGeocodeDistrict cache now lat lon up).2) := by
  refine ⟨?_, ?_, ?_⟩
  · intro lat lon
    have hnames : ∀ s ∈ districtBounds, s.1 ≠ "" := by decide
    unfold getDistrictFromCoordinates
    by_cases hsim : inRange (centi 3770) (centi 3780) (centi (-12250))
        (centi (-12230)) lat lon = true
    · rw [if_pos hsim]; decide
    · rw [if_neg hsim]
      cases hf : districtBounds.find? (fun d => containsB d.2 lat lon) with
      | some d =>
        simp only [hf]
        exact hnames d (List.mem_of_find?_eq_some hf)
      | none =>
        simp only [hf]
        by_cases h1 : inRange (centi 1150) (centi 1850) (centi 7400)
            (centi 7850) lat lon = true
        · rw [if_pos h1]; decide
        · rw [if_neg h1]
          by_cases h2 : inRange (centi 1550) (centi 2200) (centi 7250)
              (centi 8050) lat lon = true
          · rw [if_pos h2]; decide
          · rw [if_neg h2]
            by_cases h3 : inRange (centi 800) (centi 1350) (centi 7650)
                (centi 8050) lat lon = true
            · rw [if_pos h3]; decide
            · rw [if_neg h3]
              by_cases h4 : inRange (centi 2800) (centi 2900) (centi 7650)
                  (centi 7750) lat lon = true
              · rw [if_pos h4]; decide
              · rw [if_neg h4]; decide
  · intro lat lon cache now up
    rfl
  · intro cache now lat lon up hwf
    rcases reverseGeocodeDistrict_cases cache now lat lon up with
      ⟨cached, hget, hf, hEq⟩ | hEq
    · rw [hEq]
      exact ⟨hwf _ _ hget, hwf⟩
    · rw [hEq]
      rcases reverseGeocodeMiss_cases cache now (toFixed4 lat, toFixed4 lon) up
        with ⟨-, hm⟩ | ⟨addr, district, -, hp, hm⟩ | ⟨addr, -, -, hm⟩
      · rw [hm]
        refine ⟨?_, hwf⟩
        show DEFAULT_DISTRICT ≠ ""
        decide
      · rw [hm]
        refine ⟨pickDistrictFromAddress_ne_empty addr district hp, ?_⟩
        intro k e he
        rcases cacheGet_cacheSet_cases _ _ _ _ _ he with hv | hmem
        · subst hv
          exact pickDistrictFromAddress_ne_empty addr district hp
        · by_cases hl : cache.length > 1000
          · rw [if_pos hl] at hmem
            simp [cacheGet] at hmem
          · rw [if_neg hl] at hmem
            exact hwf _ _ hmem
      · rw [hm]
        refine ⟨?_, hwf⟩
        show DEFAULT_DISTRICT ≠ ""
        decide

/-- A `/sos` body that passes the endpoint's validation (all three required
fields present, valid `sos_type`) whose `location` object has no numeric
`latitude`. -/
def sosBodyNoLatitude : SosBody :=
  { sos_id := some "abc", sos_type := some "sos_alert",
    location := some ⟨.undef, .num (mkRat 775946 10000)⟩ }

/-- **C4 (counterexample).** `sosBodyNoLatitude` passes the `/sos` request
validation, yet under Strategy B the resolver raises a `TypeError`
(`latitude.toFixed` on `undefined`) to its caller, which the endpoint
surfaces as a 500 — contradicting the claim that the resolver never raises
for values passing the endpoint's validation. -/
theorem resolver_raises_counterexample :
    ¬missingRequiredField sosBodyNoLatitude ∧
    ¬invalidSosType sosBodyNoLatitude ∧
    reverseGeocodeDistrictE .undef (.num (mkRat 775946 10000)) [] 0 .fail
      = .error "TypeError" ∧
    handleSosB sosBodyNoLatitude [] 0 .fail (.sent "mid")
      = (.serverError "Failed to send SOS alert", [], []) ∧
    (handleSosB sosBodyNoLatitude [] 0 .fail (.sent "mid")).1.status = 500 := by
  refine ⟨by decide, by decide, rfl, rfl, rfl⟩

/-- Witness for the amended C4 at a concrete numeric coordinate, empty cache
and failing upstream. -/
theorem resolver_total_on_numeric_witness :
    getDistrictFromCoordinates (mkRat 129716 10000) (mkRat 775946 10000) ≠ "" ∧
    reverseGeocodeDistrictE (.num 50) (.num 50) [] 0 .fail
      = .ok (reverseGeocodeDistrict [] 0 50 50 .fail) ∧
    (reverseGeocodeDistrict [] 0 50 50 .fail).1.district ≠ "" :=
  ⟨resolver_total_on_numeric.1 (mkRat 129716 10000) (mkRat 775946 10000),
    resolver_total_on_numeric.2.1 50 50 [] 0 .fail,
    (resolver_total_on_numeric.2.2 [] 0 50 50 .fail
      (fun k e h => by simp [cacheGet] at h)).1⟩

/-! ## Candidate order of the address extraction (C2) -/

/-- The candidate list actually tried by `pickDistrictFromAddress`, in order:
the combined `districtLike || localityLike` value normalized once, then the
state/region candidate wrapped `_general`, then the country candidate wrapped
`_general`.  (The city/town chain is only reached when the whole
district/county chain is falsy, not when it normalizes to an empty slug.) -/
def pickDistrictCandidates (a : Address) : List (Option String) :=
  [ normalizeDistrictName (jsOr (addressDistrictLike a) (addressLocalityLike a)),
    (normalizeDistrictName (addressStateLike a)).map (fun s => s ++ "_general"),
    (normalizeDistrictName a.country).map (fun c => c ++ "_general") ]

/-- First non-`none` element of a candidate list. -/
def firstSome : List (Option String) → Option String
  | [] => none
  | some x :: _ => some x
  | none :: rest => firstSome rest

/-- **C2 (amended).** For every address, extraction is first-match over the
candidate list `[normalize(districtLike || localityLike),
normalize(stateLike) ++ "_general", normalize(country) ++ "_general"]`: the
locality chain is the fallback only when the district/county chain is falsy
(absent or empty), and a truthy district-style value that normalizes to an
empty slug does not fall back to the city/town chain but to the state and
country candidates. -/
theorem pickDistrict_candidate_order (a : Address) :
    pickDistrictFromAddress (some a) = firstSome (pickDistrictCandidates a) := by
  unfold pickDistrictFromAddress pickDistrictCandidates
  cases h1 : normalizeDistrictName
      (jsOr (addressDistrictLike a) (addressLocalityLike a)) with
  | some d => simp [firstSome, h1]
  | none =>
    cases h2 : normalizeDistrictName (addressStateLike a) with
    | some s => simp [firstSome, h1, h2]
    | none =>
      cases h3 : normalizeDistrictName a.country with
      | some c => simp [firstSome, h1, h2, h3]
      | none => simp [firstSome, h1, h2, h3]

/-- An address whose district field is truthy punctuation (normalizes to the
empty slug) while its city field normalizes to a non-empty slug. -/
def addressPunctDistrict : Address :=
  { district := some "!!!", city := some "Paris" }

/-- **C2 (counterexample).** With `district = "!!!"` (truthy, but its
normalization yields the empty slug) and `city = "Paris"`, the claimed order
would return `"paris"`, but the code returns no district at all: the
city/town field is never consulted because `districtLike || localityLike`
already chose the truthy district field. -/
theorem pickDistrict_claim_counterexample :
    jsTruthy addressPunctDistrict.district = true ∧
    normalizeDistrictName addressPunctDistrict.district = none ∧
    normalizeDistrictName addressPunctDistrict.city = some "paris" ∧
    pickDistrictFromAddress (some addressPunctDistrict) ≠ some "paris" ∧
    pickDistrictFromAddress (some addressPunctDistrict) = none := by
  refine ⟨by decide, by decide, by decide, by decide, by decide⟩

/-! ## Idempotence of the normalization pipeline (C6) -/

/-- The characters a produced slug may contain: `[a-z0-9_]`. -/
def isSlugChar (c : Char) : Bool :=
  isLowerAlnum c || c == '_'

/-- Adjacent-pair relation forbidding two consecutive underscores. -/
def RU (a b : Char) : Prop :=
  ¬(a = '_' ∧ b = '_')

/-- No two consecutive underscores anywhere in the list. -/
def NoRun (l : List Char) : Prop :=
  List.Chain' RU l

theorem isSlugChar_toNat {c : Char} (h : isSlugChar c = true) :
    (0x61 ≤ c.toNat ∧ c.toNat ≤ 0x7A) ∨ (0x30 ≤ c.toNat ∧ c.toNat ≤ 0x39) ∨
      c.toNat = 0x5F := by
  simp only [isSlugChar, isLowerAlnum, Bool.or_eq_true, Bool.and_eq_true,
    decide_eq_true_eq, beq_iff_eq] at h
  rcases h with (h | h) | h
  · exact Or.inl h
  · exact Or.inr (Or.inl h)
  · subst h
    exact Or.inr (Or.inr rfl)

theorem slugChar_nfkd {c : Char} (h : isSlugChar c = true) : nfkd c = [c] := by
  have := isSlugChar_toNat h
  unfold nfkd
  rw [if_pos (by omega)]

theorem slugChar_not_combining {c : Char} (h : isSlugChar c = true) :
    isCombiningMark c = false := by
  have := isSlugChar_toNat h
  simp only [isCombiningMark, Bool.and_eq_false_iff, decide_eq_false_iff_not]
  omega

theorem slugChar_ascii {c : Char} (h : isSlugChar c = true) :
    isAsciiChar c = true := by
  have := isSlugChar_toNat h
  simp only [isAsciiChar, decide_eq_true_eq]
  omega

theorem slugChar_lower {c : Char} (h : isSlugChar c = true) :
    jsToLowerChar c = c := by
  have := isSlugChar_toNat h
  unfold jsToLowerChar
  rw [if_neg (by omega)]

theorem slugChar_not_ws {c : Char} (h : isSlugChar c = true) :
    isJsWhitespace c = false := by
  have := isSlugChar_toNat h
  simp only [isJsWhitespace, Bool.or_eq_false_iff, beq_eq_false_iff_ne, ne_eq]
  omega

theorem lowerAlnum_ne_underscore {c : Char} (h : isLowerAlnum c = true) :
    (c == '_') = false := by
  simp only [isLowerAlnum, Bool.or_eq_true, Bool.and_eq_true,
    decide_eq_true_eq] at h
  simp only [beq_eq_false_iff_ne, ne_eq]
  intro hc
  subst hc
  revert h
  decide

theorem dropWhile_eq_self_of_all {p : Char → Bool} {l : List Char}
    (h : ∀ c ∈ l, p c = false) : l.dropWhile p = l := by
  cases l with
  | nil => rfl
  | cons c cs =>
    exact List.dropWhile_cons_of_neg (by simp [h c (by simp)])

theorem jsTrim_eq_self {l : List Char}
    (h : ∀ c ∈ l, isJsWhitespace c = false) : jsTrim l = l := by
  unfold jsTrim
  rw [dropWhile_eq_self_of_all h,
    dropWhile_eq_self_of_all (fun c hc => h c (List.mem_reverse.mp hc)),
    List.reverse_reverse]

theorem flatMap_nfkd_eq_self {l : List Char}
    (h : ∀ c ∈ l, isSlugChar c = true) : l.flatMap nfkd = l := by
  induction l with
  | nil => rfl
  | cons c cs ih =>
    rw [List.flatMap_cons, slugChar_nfkd (h c (by simp)),
      ih (fun d hd => h d (by simp [hd]))]
    rfl

theorem map_lower_eq_self {l : List Char}
    (h : ∀ c ∈ l, isSlugChar c = true) : l.map jsToLowerChar = l := by
  induction l with
  | nil => rfl
  | cons c cs ih =>
    rw [List.map_cons, slugChar_lower (h c (by simp)),
      ih (fun d hd => h d (by simp [hd]))]

theorem filter_not_combining_eq_self {l : List Char}
    (h : ∀ c ∈ l, isSlugChar c = true) :
    l.filter (fun c => !isCombiningMark c) = l :=
  List.filter_eq_self.mpr
    (fun c hc => by simp [slugChar_not_combining (h c hc)])

theorem filter_ascii_eq_self {l : List Char}
    (h : ∀ c ∈ l, isSlugChar c = true) : l.filter isAsciiChar = l :=
  List.filter_eq_self.mpr (fun c hc => slugChar_ascii (h c hc))

theorem mem_collapseNonAlnum {c : Char} :
    ∀ (b : Bool) (l : List Char), c ∈ collapseNonAlnum b l →
      isSlugChar c = true := by
  intro b l
  induction l generalizing b with
  | nil => intro h; simp [collapseNonAlnum] at h
  | cons d cs ih =>
    intro h
    unfold collapseNonAlnum at h
    by_cases hd : isLowerAlnum d = true
    · rw [if_pos hd] at h
      rcases List.mem_cons.mp h with hc | hc
      · subst hc
        simp [isSlugChar, hd]
      · exact ih false hc
    · rw [if_neg hd] at h
      cases b with
      | true => exact ih true h
      | false =>
        rcases List.mem_cons.mp (by simpa using h) with hc | hc
        · subst hc
          decide
        · exact ih true hc

theorem collapse_true_head (l : List Char) :
    collapseNonAlnum true l = [] ∨
    ∃ (c : Char) (cs : List Char), collapseNonAlnum true l = c :: cs ∧
      isLowerAlnum c = true := by
  induction l with
  | nil => exact Or.inl rfl
  | cons d cs ih =>
    unfold collapseNonAlnum
    by_cases hd : isLowerAlnum d = true
    · rw [if_pos hd]
      exact Or.inr ⟨d, collapseNonAlnum false cs, rfl, hd⟩
    · rw [if_neg hd, if_pos rfl]
      exact ih

theorem NoRun_collapseNonAlnum : ∀ (b : Bool) (l : List Char),
    NoRun (collapseNonAlnum b l) := by
  intro b l
  induction l generalizing b with
  | nil => simp [collapseNonAlnum, NoRun]
  | cons d cs ih =>
    unfold collapseNonAlnum
    by_cases hd : isLowerAlnum d = true
    · rw [if_pos hd]
      refine List.chain'_cons'.mpr ⟨?_, ih false⟩
      intro y _
      intro hcontra
      have : (d == '_') = false := lowerAlnum_ne_underscore hd
      simp [hcontra.1] at this
    · rw [if_neg hd]
      cases b with
      | true => exact ih true
      | false =>
        rw [if_neg (by simp)]
        refine List.chain'_cons'.mpr ⟨?_, ih true⟩
        intro y hy
        rcases collapse_true_head cs with hnil | ⟨c, cs2, hEq, hc⟩
        · rw [hnil] at hy
          simp at hy
        · rw [hEq] at hy
          simp only [List.head?_cons, Option.mem_def, Option.some.injEq] at hy
          subst hy
          intro hcontra
          have hcu : (c == '_') = false := lowerAlnum_ne_underscore hc
          simp [hcontra.2] at hcu

theorem collapse_eq_self : ∀ l : List Char,
    (∀ c ∈ l, isSlugChar c = true) → NoRun l →
    collapseNonAlnum false l = l ∧
    ((∀ c, l.head? = some c → (c == '_') = false) →
      collapseNonAlnum true l = l) := by
  intro l
  induction l with
  | nil => exact fun _ _ => ⟨rfl, fun _ => rfl⟩
  | cons d cs ih =>
    intro hSC hNR
    have hSCcs : ∀ c ∈ cs, isSlugChar c = true :=
      fun c hc => hSC c (by simp [hc])
    have hNRcs : NoRun cs := (List.chain'_cons'.mp hNR).2
    have hhead : ∀ y ∈ cs.head?, RU d y := (List.chain'_cons'.mp hNR).1
    by_cases hd : isLowerAlnum d = true
    · constructor
      · unfold collapseNonAlnum
        rw [if_pos hd, (ih hSCcs hNRcs).1]
      · intro _
        unfold collapseNonAlnum
        rw [if_pos hd, (ih hSCcs hNRcs).1]
    · have hd' : d = '_' := by
        have := hSC d (by simp)
        simp only [isSlugChar, Bool.or_eq_true, beq_iff_eq] at this
        rcases this with h1 | h1
        · exact absurd h1 hd
        · exact h1
      have htrue : collapseNonAlnum true cs = cs := by
        refine (ih hSCcs hNRcs).2 ?_
        intro c hc
        have := hhead c (by simp [hc])
        subst hd'
        simp only [beq_eq_false_iff_ne, ne_eq]
        intro hc'
        exact this ⟨rfl, hc'⟩
      constructor
      · unfold collapseNonAlnum
        rw [if_neg hd, if_neg (by simp)]
        rw [htrue, hd']
      · intro hnotu
        have := hnotu d (by simp)
        rw [hd'] at this
        simp at this

theorem head?_dropWhile_false (p : Char → Bool) (l : List Char) (c : Char)
    (h : (l.dropWhile p).head? = some c) : p c = false := by
  have hk := List.head?_dropWhile_not p l
  rw [h] at hk
  exact hk

theorem getLast?_dropWhile_ne_nil (p : Char → Bool) (l : List Char)
    (h : l.dropWhile p ≠ []) :
    (l.dropWhile p).getLast? = l.getLast? := by
  conv_rhs => rw [← List.takeWhile_append_dropWhile (p := p) (l := l)]
  exact (List.getLast?_append_of_ne_nil _ h).symm

theorem mem_trimUnderscores {c : Char} {l : List Char}
    (h : c ∈ trimUnderscores l) : c ∈ l := by
  unfold trimUnderscores at h
  rw [List.mem_reverse] at h
  have h2 := (List.dropWhile_sublist (l := (l.dropWhile
    (fun c => c == '_')).reverse) (fun c => c == '_')).subset h
  rw [List.mem_reverse] at h2
  exact (List.dropWhile_sublist (fun c => c == '_')).subset h2

theorem NoRun_trimUnderscores {l : List Char} (h : NoRun l) :
    NoRun (trimUnderscores l) := by
  have hsymm : ∀ l0 : List Char, NoRun l0 → List.Chain' (flip RU) l0 :=
    fun l0 h0 => List.Chain'.imp
      (fun a b hab => fun hc => hab ⟨hc.2, hc.1⟩) h0
  unfold trimUnderscores
  have h1 : NoRun (l.dropWhile (fun c => c == '_')) :=
    h.suffix (List.dropWhile_suffix _)
  have h2 : NoRun ((l.dropWhile (fun c => c == '_')).reverse) :=
    List.chain'_reverse.mpr (hsymm _ h1)
  have h3 : NoRun (((l.dropWhile (fun c => c == '_')).reverse).dropWhile
      (fun c => c == '_')) :=
    h2.suffix (List.dropWhile_suffix _)
  exact List.chain'_reverse.mpr (hsymm _ h3)

theorem head?_trimUnderscores_false (l : List Char) (c : Char)
    (h : (trimUnderscores l).head? = some c) : (c == '_') = false := by
  unfold trimUnderscores at h
  rw [List.head?_reverse] at h
  have hne : ((l.dropWhile (fun c => c == '_')).reverse).dropWhile
      (fun c => c == '_') ≠ [] := by
    intro hnil
    rw [hnil] at h
    simp at h
  rw [getLast?_dropWhile_ne_nil _ _ hne, List.getLast?_reverse] at h
  exact head?_dropWhile_false (fun x => x == '_') l c h

theorem getLast?_trimUnderscores_false (l : List Char) (c : Char)
    (h : (trimUnderscores l).getLast? = some c) : (c == '_') = false := by
  unfold trimUnderscores at h
  rw [List.getLast?_reverse] at h
  exact head?_dropWhile_false (fun x => x == '_')
    ((l.dropWhile (fun x => x == '_')).reverse) c h

theorem trimUnderscores_eq_self {l : List Char}
    (hh : ∀ c, l.head? = some c → (c == '_') = false)
    (hl : ∀ c, l.getLast? = some c → (c == '_') = false) :
    trimUnderscores l = l := by
  unfold trimUnderscores
  have h1 : l.dropWhile (fun c => c == '_') = l := by
    cases hcl : l with
    | nil => rfl
    | cons d ds =>
      exact List.dropWhile_cons_of_neg (by simp [hh d (by rw [hcl]; rfl)])
  rw [h1]
  have h2 : l.reverse.dropWhile (fun c => c == '_') = l.reverse := by
    cases hcl : l.reverse with
    | nil => rfl
    | cons d ds =>
      refine List.dropWhile_cons_of_neg ?_
      have : l.getLast? = some d := by
        rw [← List.head?_reverse, hcl]
        rfl
      simp [hl d this]
  rw [h2, List.reverse_reverse]

theorem trimUnderscores_idem (l : List Char) :
    trimUnderscores (trimUnderscores l) = trimUnderscores l :=
  trimUnderscores_eq_self (head?_trimUnderscores_false l)
    (getLast?_trimUnderscores_false l)

theorem normalizeDistrictName_slug (s t : String)
    (h : normalizeDistrictName (some s) = some t) :
    (∀ c ∈ t.data, isSlugChar c = true) ∧ NoRun t.data ∧
      trimUnderscores t.data = t.data ∧ t.data ≠ [] := by
  simp only [normalizeDistrictName] at h
  by_cases h0 : s.data = []
  · rw [if_pos h0] at h
    exact absurd h (by simp)
  · rw [if_neg h0] at h
    generalize hX : List.map jsToLowerChar (List.filter isAsciiChar
      (List.filter (fun c => !isCombiningMark c)
        ((jsTrim s.data).flatMap nfkd))) = X at h
    by_cases hnil : trimUnderscores (collapseNonAlnum false X) = []
    · rw [if_pos hnil] at h
      exact absurd h (by simp)
    · rw [if_neg hnil] at h
      injection h with h'
      subst h'
      refine ⟨?_, ?_, ?_, ?_⟩
      · intro c hc
        exact mem_collapseNonAlnum false X (mem_trimUnderscores hc)
      · exact NoRun_trimUnderscores (NoRun_collapseNonAlnum false X)
      · exact trimUnderscores_idem _
      · exact hnil

theorem normalize_fixed_list (td : List Char)
    (hSC : ∀ c ∈ td, isSlugChar c = true) (hNR : NoRun td)
    (hT : trimUnderscores td = td) (hne : td ≠ []) :
    normalizeDistrictName (some (String.mk td)) = some (String.mk td) := by
  simp only [normalizeDistrictName]
  rw [if_neg hne]
  rw [jsTrim_eq_self (fun c hc => slugChar_not_ws (hSC c hc))]
  rw [flatMap_nfkd_eq_self hSC]
  rw [filter_not_combining_eq_self hSC]
  rw [filter_ascii_eq_self hSC]
  rw [map_lower_eq_self hSC]
  rw [(collapse_eq_self td hSC hNR).1]
  rw [hT]
  rw [if_neg hne]

/-- **C6.** The normalization pipeline maps `"São Paulo!"` to the stable slug
`"sao_paulo"`, and it is idempotent on its own outputs: whenever it produces
a slug, normalizing that slug again returns it unchanged. -/
theorem normalize_sao_paulo_idempotent :
    normalizeDistrictName (some "São Paulo!") = some "sao_paulo" ∧
    (∀ (x : Option String) (t : String), normalizeDistrictName x = some t →
      normalizeDistrictName (some t) = some t) := by
  constructor
  · decide
  · intro x t h
    cases x with
    | none => simp [normalizeDistrictName] at h
    | some s =>
      obtain ⟨hSC, hNR, hT, hne⟩ := normalizeDistrictName_slug s t h
      exact normalize_fixed_list t.data hSC hNR hT hne

/-- Witness for C6: re-normalizing the produced slug `"sao_paulo"` is a
no-op. -/
theorem normalize_sao_paulo_idempotent_witness :
    normalizeDistrictName (some "sao_paulo") = some "sao_paulo" :=
  normalize_sao_paulo_idempotent.2 (some "São Paulo!") "sao_paulo" (by decide)
